import Mathlib

/-!
Verification of the `SIPClient` wrapper in `src/lib/sip-client.ts`.

The class holds two mutable fields, `ua : JsSIP.UA | null` and
`currentSession : JsSIP.RTCSession | null`, and exposes the operations
`connect`, `disconnect`, `call`, `answer`, `hangup`, `isConnected`,
`isRegistered` and the private helper `parseStunServers`.  We embed the
client state as a structure, each method as a pure function from the
state to a new state together with the list of externally visible
actions it performs (commands sent to the user agent or to the current
session), and the event listeners installed in `connect` as explicit
handler functions on incoming events.  JavaScript's `String.split` is
embedded as a character-list recursion with the same semantics
(`"".split(c) = [""]`, trailing separators yield empty fields), since
the behaviour of `call` and `parseStunServers` depends on it.
-/

/-! ## JavaScript string splitting -/

/-- Splitting of a character list on a single separator character with
JavaScript `String.prototype.split` semantics: the empty list yields one
empty field, and every occurrence of the separator closes the current
field and opens a new one. -/
def splitChar (c : Char) : List Char → List (List Char)
  | [] => [[]]
  | x :: xs =>
    if x = c then [] :: splitChar c xs
    else
      match splitChar c xs with
      | [] => [[x]]
      | y :: ys => (x :: y) :: ys

/-- Embedding of JavaScript `s.split(c)` for a one-character separator. -/
def jsSplit (c : Char) (s : String) : List String :=
  (splitChar c s.toList).map (fun l => String.mk l)

/-- White-space test of JavaScript `String.prototype.trim` (the
characters relevant to this code base: space, tab, newline, carriage
return, vertical tab, form feed). -/
def isJsWhitespace (c : Char) : Bool :=
  c = ' ' || c = '\t' || c = '\n' || c = '\r' || c = '\x0b' || c = '\x0c'

/-- Embedding of JavaScript `s.trim()`: strip leading and trailing
white space. -/
def jsTrim (s : String) : String :=
  String.mk (((s.toList.dropWhile isJsWhitespace).reverse.dropWhile isJsWhitespace).reverse)

/-! ## Data model of the client -/

/-- The `SIPConfig` object the client is constructed with. -/
structure SIPConfig where
  wsServer : String
  uri : String
  password : String
  displayName : String
  stunServers : String
deriving DecidableEq

/-- Observable state of the underlying `JsSIP.UA` user agent, as far as
the wrapper queries it (`isConnected()` / `isRegistered()`). -/
structure UAState where
  connected : Bool
  registered : Bool
deriving DecidableEq

/-- Direction of an `RTCSession` (`session.direction`). -/
inductive Direction where
  | incoming
  | outgoing
deriving DecidableEq

/-- An `RTCSession` as far as the wrapper inspects it: an identity and a
direction. -/
structure Session where
  id : Nat
  direction : Direction
deriving DecidableEq

/-- The mutable fields of class `SIPClient`: `ua` and `currentSession`,
both nullable. -/
structure ClientState where
  ua : Option UAState
  currentSession : Option Session
deriving DecidableEq

/-- State of a freshly constructed `SIPClient`: both fields are `null`. -/
def initialClient : ClientState :=
  { ua := none, currentSession := none }

/-- Externally visible effects a method or handler performs: calls into
the user agent, calls into the current session, and the two callbacks
`onConnectionChange` / `onCallStateChange` passed to the constructor. -/
inductive Effect where
  | uaStart
  | uaStop
  | uaCall (target : String)
  | sessionAnswer (id : Nat)
  | sessionTerminate (id : Nat)
  | connectionChange (status : String)
  | callStateChange (state : String) (id : Nat)
deriving DecidableEq

/-! ## Operations of the client -/

/-- The configuration record `connect` passes to `new JsSIP.UA(...)`. -/
structure UAConfiguration where
  uri : String
  password : String
  display_name : String
  register : Bool
  register_expires : Nat
deriving DecidableEq

/-- The `configuration` object built at the top of `connect()`:
`register` is hard-coded to `true` and `register_expires` to `120`. -/
def connectConfiguration (config : SIPConfig) : UAConfiguration :=
  { uri := config.uri
    password := config.password
    display_name := config.displayName
    register := true
    register_expires := 120 }

/-- The `disconnect()` method: if a user agent exists it is stopped and
the field is cleared; otherwise nothing happens. -/
def disconnect (s : ClientState) : ClientState × List Effect :=
  match s.ua with
  | some _ => ({ s with ua := none }, [Effect.uaStop])
  | none => (s, [])

/-- The registration guard at the top of `call()`:
`!this.ua || !this.ua.isRegistered()`. -/
def uaIsRegistered : Option UAState → Bool
  | none => false
  | some u => u.registered

/-- The call target built in `call()`:
`const host = this.config.uri.split('@')[1];`
`const target = "sip:" + phoneNumber + "@" + host;`
where interpolating the absent element of the split renders the
JavaScript text `undefined`. -/
def buildCallTarget (uri phoneNumber : String) : String :=
  let host := (jsSplit '@' uri).get? 1
  "sip:" ++ phoneNumber ++ "@" ++ host.getD "undefined"

/-- Error thrown by `call()` when the registration guard fails
(`throw new Error('Not registered')`). -/
inductive CallError where
  | notRegistered
deriving DecidableEq

/-- The `call(phoneNumber)` method: throws `Not registered` unless a
user agent exists and reports itself registered; otherwise asks the user
agent to place a call to the built target.  It does not touch
`currentSession` itself. -/
def call (cfg : SIPConfig) (s : ClientState) (phoneNumber : String) :
    Except CallError (ClientState × List Effect) :=
  match s.ua with
  | none => .error .notRegistered
  | some u =>
    if u.registered then
      .ok (s, [Effect.uaCall (buildCallTarget cfg.uri phoneNumber)])
    else
      .error .notRegistered

/-- The `answer()` method: answers only when a current session exists
and its direction is `incoming`; in every other state it does nothing
and raises nothing. -/
def answer (s : ClientState) : ClientState × List Effect :=
  match s.currentSession with
  | some sess =>
    if sess.direction = .incoming then (s, [Effect.sessionAnswer sess.id])
    else (s, [])
  | none => (s, [])

/-- The `hangup()` method: if a current session exists it is terminated
and the field is cleared; otherwise nothing happens. -/
def hangup (s : ClientState) : ClientState × List Effect :=
  match s.currentSession with
  | some sess => ({ s with currentSession := none }, [Effect.sessionTerminate sess.id])
  | none => (s, [])

/-- The `isConnected()` observer: `this.ua?.isConnected() ?? false`. -/
def isConnected (s : ClientState) : Bool :=
  match s.ua with
  | none => false
  | some u => u.connected

/-- The `isRegistered()` observer: `this.ua?.isRegistered() ?? false`. -/
def isRegistered (s : ClientState) : Bool :=
  match s.ua with
  | none => false
  | some u => u.registered

/-! ## Event handlers installed by `connect` -/

/-- Events an `RTCSession` delivers to the listeners `connect()`
installs on it inside the `newRTCSession` handler. -/
inductive SessionEvent where
  | accepted
  | progress
  | failed
  | ended
  | confirmed
deriving DecidableEq

/-- The session listeners installed in the `newRTCSession` handler:
`accepted`/`confirmed` report `answered`, `progress` reports `ringing`,
and the two terminal events `failed` and `ended` report their state and
clear `currentSession`. -/
def handleSessionEvent (s : ClientState) (sess : Session) (e : SessionEvent) :
    ClientState × List Effect :=
  match e with
  | .accepted => (s, [Effect.callStateChange "answered" sess.id])
  | .progress => (s, [Effect.callStateChange "ringing" sess.id])
  | .failed => ({ s with currentSession := none }, [Effect.callStateChange "failed" sess.id])
  | .ended => ({ s with currentSession := none }, [Effect.callStateChange "ended" sess.id])
  | .confirmed => (s, [Effect.callStateChange "answered" sess.id])

/-- The `newRTCSession` handler: stores the session in `currentSession`
and, when it is incoming, reports an `incoming` call state. -/
def handleNewRTCSession (s : ClientState) (sess : Session) : ClientState × List Effect :=
  ({ s with currentSession := some sess },
    if sess.direction = .incoming then [Effect.callStateChange "incoming" sess.id] else [])

/-! ## STUN/TURN server-list parsing -/

/-- An `RTCIceServer` entry as built by `parseStunServers`. -/
structure RTCIceServer where
  urls : List String
  username : Option String
  credential : Option String
deriving DecidableEq

/-- The body of the `for` loop of `parseStunServers`: split the line on
commas, trim the first part into the url, and attach trimmed credentials
exactly when the line has three comma-separated parts. -/
def parseLine (line : String) : RTCIceServer :=
  let parts := jsSplit ',' line
  let urls := jsTrim (parts.headD "")
  if parts.length = 3 then
    { urls := [urls]
      username := some (jsTrim ((parts.get? 1).getD ""))
      credential := some (jsTrim ((parts.get? 2).getD "")) }
  else
    { urls := [urls], username := none, credential := none }

/-- The private `parseStunServers(stunConfig)` helper: split the
configuration on newlines, keep the lines that are nonblank after
trimming, and turn each into one server entry.  It is total and signals
no error on any input. -/
def parseStunServers (stunConfig : String) : List RTCIceServer :=
  ((jsSplit '\n' stunConfig).filter (fun line => jsTrim line ≠ "")).map parseLine

/-! ## Registration renewal (modelled from the spec) -/

/-- Registration states named by the spec. -/
inductive RegState where
  | unregistered
  | registering
  | registered
  | failed
deriving DecidableEq

/-- Modelled from the spec: `maxRegisterRetries (default 5)`.  The
renewal retry engine is absent from `src/` — the wrapper delegates
registration refresh to the external JsSIP library and its
`registrationFailed` listener only surfaces an error status — so the
bound is taken from the configuration surface of the spec. -/
def maxRegisterRetries : Nat := 5

/-- Modelled from the spec: exponential backoff with base 1 second,
doubling per attempt, capped at 32 seconds. -/
def backoffDelay (attempt : Nat) : Nat :=
  min 32 (2 ^ attempt)

/-- Registration bookkeeping of the spec's Registration entity: current
state and retry count. -/
structure RenewState where
  regState : RegState
  retryCount : Nat
deriving DecidableEq

/-- Event emitted when the registration gives up and transitions to
`Failed`. -/
inductive RegEvent where
  | registrationFailed
deriving DecidableEq

/-- Result of processing one renewal failure: the new registration
state, an optional scheduled retry (with its backoff delay in seconds),
and the events emitted. -/
structure RenewOutcome where
  state : RenewState
  retryDelay : Option Nat
  events : List RegEvent
deriving DecidableEq

/-- Modelled from the spec: on a renewal failure the manager retries
with exponential backoff while the failure count stays below
`maxRegisterRetries`; once the count reaches the bound it transitions to
`Failed`, emits an event, and schedules no further retry. -/
def onRenewFailure (s : RenewState) : RenewOutcome :=
  if s.retryCount + 1 < maxRegisterRetries then
    { state := { regState := .registering, retryCount := s.retryCount + 1 }
      retryDelay := some (backoffDelay s.retryCount)
      events := [] }
  else
    { state := { regState := .failed, retryCount := s.retryCount + 1 }
      retryDelay := none
      events := [RegEvent.registrationFailed] }

/-- The registration state a renewal cycle starts from: registered,
with no failures recorded. -/
def renewStart : RenewState :=
  { regState := .registered, retryCount := 0 }

/-- The registration state after `n` consecutive renewal failures. -/
def failuresFrom (s : RenewState) : Nat → RenewState
  | 0 => s
  | n + 1 => (onRenewFailure (failuresFrom s n)).state

/-! ## Auxiliary string functions for the call-target analysis -/

/-- Longest prefix of a character list not containing the character
`c`: the first field `splitChar` produces. -/
def upToChar (c : Char) : List Char → List Char
  | [] => []
  | x :: xs => if x = c then [] else x :: upToChar c xs

/-- First-occurrence suffix search on character lists. -/
def afterFirstAtAux (c : Char) : List Char → Option (List Char)
  | [] => none
  | x :: xs => if x = c then some xs else afterFirstAtAux c xs

/-- The host as the claim under examination describes it: the portion
of the configured URI after its first `@` character, absent when the
URI contains no `@`. -/
def specAfterFirstAt (s : String) : Option String :=
  (afterFirstAtAux '@' s.toList).map String.mk

/-- A concrete configuration used to instantiate the theorems. -/
def sampleConfig : SIPConfig :=
  { wsServer := "wss://pbx.example:8089/ws"
    uri := "sip:100@pbx.example"
    password := "secret"
    displayName := "Alice"
    stunServers := "stun:stun.example" }

/-! ## Helper lemmas -/

/-- Splitting never produces an empty list of fields. -/
theorem splitChar_ne_nil (c : Char) (l : List Char) : splitChar c l ≠ [] := by
  cases l with
  | nil => simp [splitChar]
  | cons x xs =>
    simp only [splitChar]
    split
    · simp
    · split <;> simp

/-- A list free of the separator is a single field. -/
theorem splitChar_of_not_mem {c : Char} {l : List Char} (h : c ∉ l) :
    splitChar c l = [l] := by
  induction l with
  | nil => rfl
  | cons x xs ih =>
    simp only [List.mem_cons, not_or] at h
    have ih' := ih h.2
    simp [splitChar, if_neg (Ne.symm h.1), ih']

/-- Splitting at the first separator occurrence: everything before it is
the first field, the rest is split recursively. -/
theorem splitChar_append {c : Char} {a : List Char} (h : c ∉ a) (b : List Char) :
    splitChar c (a ++ c :: b) = a :: splitChar c b := by
  induction a with
  | nil => simp [splitChar]
  | cons x xs ih =>
    simp only [List.mem_cons, not_or] at h
    have ih' := ih h.2
    simp [List.cons_append, splitChar, if_neg (Ne.symm h.1), ih']

/-- The first field of a split is the prefix up to the first separator. -/
theorem splitChar_headD (c : Char) (l : List Char) :
    (splitChar c l).headD [] = upToChar c l := by
  induction l with
  | nil => rfl
  | cons x xs ih =>
    by_cases h : x = c
    · simp [splitChar, upToChar, h]
    · simp only [splitChar, upToChar, if_neg h]
      cases hs : splitChar c xs with
      | nil => exact absurd hs (splitChar_ne_nil c xs)
      | cons y ys =>
        rw [hs] at ih
        simpa using ih

/-- When the configured URI contains no at sign, the split has a single
field, element 1 is absent, and the target embeds `undefined`. -/
theorem buildCallTarget_no_at {uri : String} (h : '@' ∉ uri.toList) (n : String) :
    buildCallTarget uri n = "sip:" ++ n ++ "@" ++ "undefined" := by
  unfold buildCallTarget jsSplit
  rw [splitChar_of_not_mem h]
  rfl

/-- When the configured URI contains an at sign, the host in the target
is exactly the segment between the first at sign and the following one
(or the end of the URI). -/
theorem buildCallTarget_with_at {uri : String} {a b : List Char} (ha : '@' ∉ a)
    (huri : uri.toList = a ++ '@' :: b) (n : String) :
    buildCallTarget uri n = "sip:" ++ n ++ "@" ++ String.mk (upToChar '@' b) := by
  unfold buildCallTarget jsSplit
  rw [huri, splitChar_append ha]
  cases hs : splitChar '@' b with
  | nil => exact absurd hs (splitChar_ne_nil '@' b)
  | cons y ys =>
    have hy : y = upToChar '@' b := by
      have hh := splitChar_headD '@' b
      rw [hs] at hh
      simpa using hh
    simp [hs, hy]

/-- The retry counter counts the consecutive failures processed. -/
theorem failuresFrom_retryCount (n : Nat) :
    (failuresFrom renewStart n).retryCount = n := by
  induction n with
  | zero => rfl
  | succ k ih =>
    simp only [failuresFrom, onRenewFailure]
    split <;> simp [ih]

/-! ## Claim theorems -/

/-- C1: for every call attempt, if the client is not registered (no
user agent exists or the user agent reports it is not registered),
`call` fails synchronously with the not-registered error and no call
session is created (the client state is untouched and no command is
issued); if the client is registered, the call proceeds by issuing the
invite to the user agent. -/
theorem call_requires_registration (cfg : SIPConfig) (s : ClientState) (n : String) :
    (uaIsRegistered s.ua = false → call cfg s n = .error .notRegistered) ∧
    (uaIsRegistered s.ua = true →
      call cfg s n = .ok (s, [Effect.uaCall (buildCallTarget cfg.uri n)])) := by
  obtain ⟨ua, cs⟩ := s
  cases ua with
  | none => simp [call, uaIsRegistered]
  | some u => cases hr : u.registered <;> simp [call, uaIsRegistered, hr]

/-- C1 witness: at a concrete unregistered state the call errors, and
at a concrete registered state it proceeds. -/
theorem call_requires_registration_inst :
    call sampleConfig initialClient "123" = .error .notRegistered ∧
    call sampleConfig { ua := some ⟨true, true⟩, currentSession := none } "123" =
      .ok ({ ua := some ⟨true, true⟩, currentSession := none },
           [Effect.uaCall (buildCallTarget sampleConfig.uri "123")]) :=
  ⟨(call_requires_registration sampleConfig initialClient "123").1 rfl,
   (call_requires_registration sampleConfig
      { ua := some ⟨true, true⟩, currentSession := none } "123").2 rfl⟩

/-- C2: once a session reaches a terminal state (`failed` or `ended`),
the handler clears `currentSession`, so the client no longer holds the
session and subsequent `hangup` and `answer` calls observe no current
session: both leave the state unchanged and issue no command, so no
further transition of that session is observable through the client. -/
theorem terminal_event_clears_session (s : ClientState) (sess : Session)
    (e : SessionEvent) (h : e = .failed ∨ e = .ended) :
    (handleSessionEvent s sess e).1.currentSession = none ∧
    hangup (handleSessionEvent s sess e).1 = ((handleSessionEvent s sess e).1, []) ∧
    answer (handleSessionEvent s sess e).1 = ((handleSessionEvent s sess e).1, []) := by
  rcases h with h | h <;> subst h <;>
    simp [handleSessionEvent, hangup, answer]

/-- C2 witness: a concrete active client processing `ended` for its
session drops it and the subsequent `hangup`/`answer` are no-ops. -/
theorem terminal_event_clears_session_inst :
    (handleSessionEvent { ua := some ⟨true, true⟩, currentSession := some ⟨7, .incoming⟩ }
        ⟨7, .incoming⟩ .ended).1.currentSession = none ∧
    hangup (handleSessionEvent { ua := some ⟨true, true⟩, currentSession := some ⟨7, .incoming⟩ }
        ⟨7, .incoming⟩ .ended).1 =
      ((handleSessionEvent { ua := some ⟨true, true⟩, currentSession := some ⟨7, .incoming⟩ }
        ⟨7, .incoming⟩ .ended).1, []) ∧
    answer (handleSessionEvent { ua := some ⟨true, true⟩, currentSession := some ⟨7, .incoming⟩ }
        ⟨7, .incoming⟩ .ended).1 =
      ((handleSessionEvent { ua := some ⟨true, true⟩, currentSession := some ⟨7, .incoming⟩ }
        ⟨7, .incoming⟩ .ended).1, []) :=
  terminal_event_clears_session _ _ .ended (Or.inr rfl)

/-- C3: `hangup` is idempotent.  When no current session exists it is a
no-op that raises no error and leaves the client state unchanged, and
running `hangup` immediately after a `hangup` changes nothing and sends
nothing, so two consecutive calls equal one. -/
theorem hangup_idempotent (s : ClientState) :
    (s.currentSession = none → hangup s = (s, [])) ∧
    hangup (hangup s).1 = ((hangup s).1, []) ∧
    (hangup (hangup s).1).1 = (hangup s).1 := by
  obtain ⟨ua, cs⟩ := s
  cases cs <;> simp [hangup]

/-- C3 witness: on a concrete terminated client `hangup` is a no-op,
and a double `hangup` from an active client equals a single one. -/
theorem hangup_idempotent_inst :
    hangup initialClient = (initialClient, []) ∧
    hangup (hangup { ua := some ⟨true, true⟩, currentSession := some ⟨3, .outgoing⟩ }).1 =
      ((hangup { ua := some ⟨true, true⟩, currentSession := some ⟨3, .outgoing⟩ }).1, []) :=
  ⟨(hangup_idempotent initialClient).1 rfl,
   (hangup_idempotent { ua := some ⟨true, true⟩, currentSession := some ⟨3, .outgoing⟩ }).2.1⟩

/-- C4: `answer` only answers an incoming session.  When no current
session exists, or the current session's direction is not incoming, it
performs no transition, answers nothing and raises no error; when the
current session is incoming it answers exactly that session. -/
theorem answer_only_incoming (s : ClientState) (sess : Session) :
    (s.currentSession = none → answer s = (s, [])) ∧
    (s.currentSession = some sess → sess.direction ≠ .incoming → answer s = (s, [])) ∧
    (s.currentSession = some sess → sess.direction = .incoming →
      answer s = (s, [Effect.sessionAnswer sess.id])) := by
  obtain ⟨ua, cs⟩ := s
  cases cs with
  | none => simp [answer]
  | some t =>
    refine ⟨by simp, ?_, ?_⟩ <;> intro he hd <;>
      cases he <;> simp [answer, hd]

/-- C4 witness: `answer` on a client with no session and on a client
with an outgoing session is a no-op, and on an incoming session it
answers it. -/
theorem answer_only_incoming_inst :
    answer initialClient = (initialClient, []) ∧
    answer { ua := some ⟨true, true⟩, currentSession := some ⟨3, .outgoing⟩ } =
      ({ ua := some ⟨true, true⟩, currentSession := some ⟨3, .outgoing⟩ }, []) ∧
    answer { ua := some ⟨true, true⟩, currentSession := some ⟨4, .incoming⟩ } =
      ({ ua := some ⟨true, true⟩, currentSession := some ⟨4, .incoming⟩ },
        [Effect.sessionAnswer 4]) :=
  ⟨(answer_only_incoming initialClient ⟨0, .incoming⟩).1 rfl,
   (answer_only_incoming { ua := some ⟨true, true⟩, currentSession := some ⟨3, .outgoing⟩ }
      ⟨3, .outgoing⟩).2.1 rfl (by simp),
   (answer_only_incoming { ua := some ⟨true, true⟩, currentSession := some ⟨4, .incoming⟩ }
      ⟨4, .incoming⟩).2.2 rfl rfl⟩

/-- C5: the configuration `connect` passes to the user agent has
registration enabled and a registration expiry of 120 seconds, for
every client configuration. -/
theorem connect_registers_with_expiry_120 (cfg : SIPConfig) :
    (connectConfiguration cfg).register = true ∧
    (connectConfiguration cfg).register_expires = 120 :=
  ⟨rfl, rfl⟩

/-- C6: `disconnect` releases the user agent on every path: afterwards
the client holds no user agent, whatever the prior state (registered or
not); when a user agent existed it is stopped, and when none existed
the call is harmless (state unchanged, nothing issued). -/
theorem disconnect_releases_ua (s : ClientState) :
    (disconnect s).1.ua = none ∧
    (s.ua.isSome = true → (disconnect s).2 = [Effect.uaStop]) ∧
    (s.ua = none → disconnect s = (s, [])) := by
  obtain ⟨ua, cs⟩ := s
  cases ua <;> simp [disconnect]

/-- C6 witness: disconnecting a concrete registered client drops and
stops its user agent, and disconnecting a fresh client is a no-op. -/
theorem disconnect_releases_ua_inst :
    (disconnect { ua := some ⟨true, true⟩, currentSession := none }).1.ua = none ∧
    (disconnect { ua := some ⟨true, true⟩, currentSession := none }).2 = [Effect.uaStop] ∧
    disconnect initialClient = (initialClient, []) :=
  ⟨(disconnect_releases_ua { ua := some ⟨true, true⟩, currentSession := none }).1,
   (disconnect_releases_ua { ua := some ⟨true, true⟩, currentSession := none }).2.1 rfl,
   (disconnect_releases_ua initialClient).2.2 rfl⟩

/-- C7: renewal retries are bounded (registration renewal is modelled
from the spec, since the wrapper delegates it to the external library).
Failures one to four schedule a retry with exponential backoff delay
`min 32 (2 ^ m)` seconds — base 1, doubling per attempt, capped at
32 — the fifth and every later consecutive failure schedules no retry,
so at most five attempts are ever made and no sixth retry occurs; at
the bound the registration transitions to `failed` (where it stays) and
the failure event is emitted; every step is a total function, so the
process cannot crash. -/
theorem renewal_retries_bounded (m n : Nat) (hm : m < 4) (hn : 4 ≤ n) :
    (onRenewFailure (failuresFrom renewStart m)).retryDelay = some (min 32 (2 ^ m)) ∧
    (onRenewFailure (failuresFrom renewStart n)).retryDelay = none ∧
    (onRenewFailure (failuresFrom renewStart n)).state.regState = .failed ∧
    (failuresFrom renewStart (n + 1)).regState = .failed ∧
    (onRenewFailure (failuresFrom renewStart 4)).events = [RegEvent.registrationFailed] ∧
    backoffDelay n ≤ 32 := by
  have hcm := failuresFrom_retryCount m
  have hcn := failuresFrom_retryCount n
  have h1 : m + 1 < maxRegisterRetries := by
    simp only [maxRegisterRetries]
    omega
  have h2 : ¬ (n + 1 < maxRegisterRetries) := by
    simp only [maxRegisterRetries]
    omega
  refine ⟨?_, ?_, ?_, ?_, by rfl, ?_⟩
  · simp [onRenewFailure, hcm, h1, backoffDelay]
  · simp [onRenewFailure, hcn, h2]
  · simp [onRenewFailure, hcn, h2]
  · simp [failuresFrom, onRenewFailure, hcn, h2]
  · exact Nat.min_le_left 32 (2 ^ n)

/-- C7 witness: the fourth failure schedules a retry after 8 seconds,
the fifth schedules none and fails the registration with its event, and
the sixth failure leaves it failed. -/
theorem renewal_retries_bounded_inst :
    (onRenewFailure (failuresFrom renewStart 3)).retryDelay = some (min 32 (2 ^ 3)) ∧
    (onRenewFailure (failuresFrom renewStart 4)).retryDelay = none ∧
    (onRenewFailure (failuresFrom renewStart 4)).state.regState = .failed ∧
    (failuresFrom renewStart (4 + 1)).regState = .failed ∧
    (onRenewFailure (failuresFrom renewStart 4)).events = [RegEvent.registrationFailed] ∧
    backoffDelay 4 ≤ 32 :=
  renewal_retries_bounded 3 4 (by decide) (by decide)

/-- C8 counterexample: the server-list parser performs no validation
and can signal no error — a malformed two-field entry, which carries a
username but no credential, is silently coerced into a plain STUN
server with the username dropped, instead of being rejected with a
specific error. -/
theorem parseStunServers_accepts_malformed :
    parseStunServers "stun:a,user" =
      [{ urls := ["stun:a"], username := none, credential := none }] := by
  rfl

/-- C8 (amended): `parseStunServers` is total and never rejects: every
line that is nonblank after trimming yields exactly one server entry
with a single url, credentials are attached in pairs (username and
credential together, when the line has exactly three comma-separated
fields) and partially recognised lines are silently included rather
than reported. -/
theorem parseStunServers_never_rejects (cfg : String) (srv : RTCIceServer)
    (h : srv ∈ parseStunServers cfg) :
    (parseStunServers cfg).length
      = ((jsSplit '\n' cfg).filter (fun line => jsTrim line ≠ "")).length ∧
    srv.urls.length = 1 ∧
    (srv.username.isSome ↔ srv.credential.isSome) := by
  constructor
  · simp [parseStunServers]
  · simp only [parseStunServers, List.mem_map] at h
    obtain ⟨line, -, rfl⟩ := h
    by_cases h3 : (jsSplit ',' line).length = 3 <;> simp [parseLine, h3]

/-- C8 witness: a concrete two-line configuration yields two entries,
and its TURN entry has one url and a credential pair. -/
theorem parseStunServers_never_rejects_inst :
    (parseStunServers "stun:a\nturn:b,u,p").length
      = ((jsSplit '\n' "stun:a\nturn:b,u,p").filter (fun line => jsTrim line ≠ "")).length ∧
    (RTCIceServer.mk ["turn:b"] (some "u") (some "p")).urls.length = 1 ∧
    ((RTCIceServer.mk ["turn:b"] (some "u") (some "p")).username.isSome ↔
      (RTCIceServer.mk ["turn:b"] (some "u") (some "p")).credential.isSome) :=
  parseStunServers_never_rejects "stun:a\nturn:b,u,p"
    (RTCIceServer.mk ["turn:b"] (some "u") (some "p"))
    (by
      have h : parseStunServers "stun:a\nturn:b,u,p" =
          [{ urls := ["stun:a"], username := none, credential := none },
           { urls := ["turn:b"], username := some "u", credential := some "p" }] := by rfl
      rw [h]
      simp)

/-- C9 counterexample: when the configured URI contains two at signs,
the built target uses only the segment between the first and the second
at sign, not the whole portion after the first at sign as the claim
describes: at URI `user@dom@x` and phone number `1` the code produces
`sip:1@dom`, while the claim prescribes `sip:1@dom@x`. -/
theorem call_target_counterexample :
    buildCallTarget "user@dom@x" "1" = "sip:1@dom" ∧
    "sip:" ++ "1" ++ "@" ++ ((specAfterFirstAt "user@dom@x").getD "undefined")
      = "sip:1@dom@x" ∧
    ("sip:1@dom" : String) ≠ "sip:1@dom@x" :=
  ⟨by rfl, by rfl, by decide⟩

/-- C9 (amended): for every phone-number string the invite target is
`sip:` ++ phoneNumber ++ `@` ++ h, where h is the second field of
splitting the configured URI on `@` — the segment between the first `@`
and the next `@` or the end of the URI, which equals the whole portion
after the first `@` exactly when the URI contains no further `@`;
neither string is validated, and when the URI contains no `@` at all
the target embeds the text `undefined`. -/
theorem call_target_shape (uri n : String) (a b : List Char) :
    ('@' ∉ uri.toList → buildCallTarget uri n = "sip:" ++ n ++ "@" ++ "undefined") ∧
    ('@' ∉ a → uri.toList = a ++ '@' :: b →
      buildCallTarget uri n = "sip:" ++ n ++ "@" ++ String.mk (upToChar '@' b)) :=
  ⟨fun h => buildCallTarget_no_at h n,
   fun ha huri => buildCallTarget_with_at ha huri n⟩

/-- C9 witness: an at-free URI embeds `undefined`, and a URI with one
at sign uses the portion after it. -/
theorem call_target_shape_inst :
    buildCallTarget "nodomain" "5" = "sip:" ++ "5" ++ "@" ++ "undefined" ∧
    buildCallTarget "u@d" "5" = "sip:" ++ "5" ++ "@" ++ String.mk (upToChar '@' ['d']) :=
  ⟨(call_target_shape "nodomain" "5" [] []).1 (by decide),
   (call_target_shape "u@d" "5" ['u'] ['d']).2 (by decide) (by rfl)⟩

/-- C10: the observers `isConnected` and `isRegistered` are total
functions that raise nothing: whenever no user agent exists — on the
freshly constructed client, before any `connect` — both return false,
and after any `disconnect` both return false. -/
theorem observers_false_without_ua (s : ClientState) :
    (s.ua = none → isConnected s = false ∧ isRegistered s = false) ∧
    isConnected initialClient = false ∧
    isRegistered initialClient = false ∧
    isConnected (disconnect s).1 = false ∧
    isRegistered (disconnect s).1 = false := by
  obtain ⟨ua, cs⟩ := s
  cases ua <;> simp [isConnected, isRegistered, disconnect, initialClient]

/-- C10 witness: both observers are false on the fresh client, and
false after disconnecting a connected, registered client. -/
theorem observers_false_without_ua_inst :
    (isConnected initialClient = false ∧ isRegistered initialClient = false) ∧
    isConnected (disconnect { ua := some ⟨true, true⟩, currentSession := none }).1 = false ∧
    isRegistered (disconnect { ua := some ⟨true, true⟩, currentSession := none }).1 = false :=
  ⟨(observers_false_without_ua initialClient).1 rfl,
   (observers_false_without_ua { ua := some ⟨true, true⟩, currentSession := none }).2.2.2.1,
   (observers_false_without_ua { ua := some ⟨true, true⟩, currentSession := none }).2.2.2.2⟩
